import Mathlib

/-!
Verification of the vsfs consistency checker (task1fh.c).

The image file is modelled as a byte function `Image := Nat → Nat`; every
stored byte is an octet, so reads mask with `% 256`.  Multi-byte integer
fields of the packed structs are decoded little-endian, exactly as the
`memcpy` onto the packed `Superblock`/`Inode` structs reads them on the
target.  Each `printf` of the checker becomes one constructor of the
`Line` type, so the diagnostic output of a run is a `List Line`.  The
five passes are embedded as `List.foldl` loops over the index ranges,
carrying the same mutable state the C code keeps in its global arrays.
-/

namespace Vsfs

-- Compile-time constants (task1fh.c lines 7-18).
def BLOCK_SIZE : Nat := 4096

def TOTAL_BLOCKS : Nat := 64

def SUPERBLOCK_BLOCK_NO : Nat := 0

def INODE_BITMAP_BLOCK_NO : Nat := 1

def DATA_BITMAP_BLOCK_NO : Nat := 2

def INODE_TABLE_START_BLOCK : Nat := 3

def INODE_TABLE_BLOCKS : Nat := 5

def DATA_BLOCK_START : Nat := 8

def INODE_SIZE : Nat := 256

def INODES_PER_BLOCK : Nat := BLOCK_SIZE / INODE_SIZE

def MAX_INODES : Nat := INODES_PER_BLOCK * INODE_TABLE_BLOCKS

def MAX_DATA_BLOCKS : Nat := TOTAL_BLOCKS - DATA_BLOCK_START

/-- The image file, as the byte stored at each absolute offset. -/
abbrev Image := Nat → Nat

/-- A byte of the image is an octet. -/
def byteAt (img : Image) (off : Nat) : Nat := img off % 256

/-- `readBlock` (lines 65-68): byte `j` of the buffer filled from block
`blockNum`, i.e. the byte at offset `blockNum * BLOCK_SIZE + j`. -/
def readBlock (img : Image) (blockNum : Nat) : Nat → Nat :=
  fun j => byteAt img (blockNum * BLOCK_SIZE + j)

/-- Little-endian decoding of a packed `uint16_t` field. -/
def buf16 (buf : Nat → Nat) (off : Nat) : Nat :=
  buf off + 256 * buf (off + 1)

/-- Little-endian decoding of a packed `uint32_t` field. -/
def buf32 (buf : Nat → Nat) (off : Nat) : Nat :=
  buf off + 256 * buf (off + 1) + 65536 * buf (off + 2) + 16777216 * buf (off + 3)

/-- The decoded `Superblock` struct (lines 23-34). -/
structure Superblock where
  magic : Nat
  blockSize : Nat
  totalBlocks : Nat
  inodeBitmapBlock : Nat
  dataBitmapBlock : Nat
  inodeTableStart : Nat
  dataBlockStart : Nat
  inodeSize : Nat
  inodeCount : Nat
  deriving DecidableEq

/-- Deserialising the packed superblock from a raw block buffer: magic is a
2-byte field at offset 0, then eight 4-byte fields. -/
def decodeSuperblock (buf : Nat → Nat) : Superblock :=
  { magic := buf16 buf 0
    blockSize := buf32 buf 2
    totalBlocks := buf32 buf 6
    inodeBitmapBlock := buf32 buf 10
    dataBitmapBlock := buf32 buf 14
    inodeTableStart := buf32 buf 18
    dataBlockStart := buf32 buf 22
    inodeSize := buf32 buf 26
    inodeCount := buf32 buf 30 }

/-- The decoded `Inode` struct (lines 39-55). -/
structure Inode where
  mode : Nat
  uid : Nat
  gid : Nat
  size : Nat
  atime : Nat
  ctime : Nat
  mtime : Nat
  dtime : Nat
  links : Nat
  blocks : Nat
  direct : Nat
  indirect : Nat
  doubleIndirect : Nat
  tripleIndirect : Nat
  deriving DecidableEq

/-- Decoding inode `i`: its containing block is
`INODE_TABLE_START_BLOCK + (i * INODE_SIZE) / BLOCK_SIZE` and its byte offset
inside that block `(i * INODE_SIZE) % BLOCK_SIZE` (lines 116-120, 230-234);
the fourteen 4-byte fields follow in order. -/
def readInode (img : Image) (i : Nat) : Inode :=
  let blockNum := INODE_TABLE_START_BLOCK + (i * INODE_SIZE) / BLOCK_SIZE
  let off := (i * INODE_SIZE) % BLOCK_SIZE
  let buf := readBlock img blockNum
  { mode := buf32 buf off
    uid := buf32 buf (off + 4)
    gid := buf32 buf (off + 8)
    size := buf32 buf (off + 12)
    atime := buf32 buf (off + 16)
    ctime := buf32 buf (off + 20)
    mtime := buf32 buf (off + 24)
    dtime := buf32 buf (off + 28)
    links := buf32 buf (off + 32)
    blocks := buf32 buf (off + 36)
    direct := buf32 buf (off + 40)
    indirect := buf32 buf (off + 44)
    doubleIndirect := buf32 buf (off + 48)
    tripleIndirect := buf32 buf (off + 52) }

/-- An inode is valid (in use) iff `links > 0 && dtime == 0` (lines 122, 236). -/
def isValid (ino : Inode) : Bool :=
  decide (0 < ino.links) && decide (ino.dtime = 0)

/-- One bit of a raw bitmap buffer: entry `i` is bit `i % 8` of byte `i / 8`
(line 75: `(rawBitmap[i / 8] >> (i % 8)) & 1`). -/
def bitmapBit (buf : Nat → Nat) (i : Nat) : Bool :=
  decide ((buf (i / 8) >>> (i % 8)) % 2 = 1)

/-- `loadBitmap` (lines 71-77): entry `i` of the bitmap stored in block
`blockNum`. -/
def loadBitmap (img : Image) (blockNum : Nat) (i : Nat) : Bool :=
  bitmapBit (readBlock img blockNum) i

/-- The declared inode bitmap, loaded from block 1 (line 286). -/
def inodeBitmap (img : Image) (i : Nat) : Bool :=
  loadBitmap img INODE_BITMAP_BLOCK_NO i

/-- The declared data bitmap, loaded from block 2 (line 287). -/
def dataBitmap (img : Image) (i : Nat) : Bool :=
  loadBitmap img DATA_BITMAP_BLOCK_NO i

/-- One line of diagnostic output: one constructor per `printf` of the
checker, carrying the formatted numbers. -/
inductive Line where
  | errInvalidMagic
  | errInvalidBlockSize
  | errInvalidTotalBlocks
  | errSuperblockPointers
  | errInvalidInodeSize
  | errInodeCountExceeds
  | errInodeMarkedUsedButInvalid (i : Nat)
  | errInodeValidNotMarked (i : Nat)
  | errInvalidDirectBlock (i : Nat) (b : Nat)
  | errRefBlockNotMarked (i : Nat) (b : Nat)
  | errDataMarkedNotReferenced (b : Nat)
  | errDataUsedNotMarked (b : Nat)
  | errDataMultipleRefs (b : Nat)
  | errInodeMarkedNotUsed (i : Nat)
  | errInodeUsedNotMarked (i : Nat)
  | okInodeBitmapConsistent
  | okNoDuplicates
  | errBadIndirect (i : Nat) (b : Nat)
  | errBadDoubleIndirect (i : Nat) (b : Nat)
  | errBadTripleIndirect (i : Nat) (b : Nat)
  | okNoBadBlocks
  | bannerSuperblock
  | bannerBitmapsLoaded
  | bannerInodeChecks
  | bannerBitmapChecks
  | bannerBlockRefChecks
  deriving DecidableEq

/-- `readSuperblock` (lines 79-105): the validation findings, in print
order.  The four location fields share a single combined check (lines
92-97). -/
def readSuperblockOut (img : Image) : List Line :=
  let sb := decodeSuperblock (readBlock img SUPERBLOCK_BLOCK_NO)
  (if sb.magic ≠ 0xD34D then [Line.errInvalidMagic] else [])
    ++ (if sb.blockSize ≠ BLOCK_SIZE then [Line.errInvalidBlockSize] else [])
    ++ (if sb.totalBlocks ≠ TOTAL_BLOCKS then [Line.errInvalidTotalBlocks] else [])
    ++ (if sb.inodeBitmapBlock ≠ INODE_BITMAP_BLOCK_NO ∨ sb.dataBitmapBlock ≠ DATA_BITMAP_BLOCK_NO ∨
          sb.inodeTableStart ≠ INODE_TABLE_START_BLOCK ∨ sb.dataBlockStart ≠ DATA_BLOCK_START then
          [Line.errSuperblockPointers] else [])
    ++ (if sb.inodeSize ≠ INODE_SIZE then [Line.errInvalidInodeSize] else [])
    ++ (if MAX_INODES < sb.inodeCount then [Line.errInodeCountExceeds] else [])

/-- The state the checker keeps in its global arrays (lines 58-62), plus the
output printed so far. -/
structure ScanState where
  inodeUsed : Nat → Bool
  dataBlockUsed : Nat → Bool
  blockRefCount : Nat → Nat
  output : List Line

/-- The globals start zero-initialised. -/
def initState : ScanState :=
  { inodeUsed := fun _ => false
    dataBlockUsed := fun _ => false
    blockRefCount := fun _ => 0
    output := [] }

/-- One iteration of the Pass-1 loop body of `checkInodes` (lines 115-146). -/
def checkInodesStep (img : Image) (s : ScanState) (i : Nat) : ScanState :=
  let ino := readInode img i
  let v := isValid ino
  let out1 := s.output
    ++ (if inodeBitmap img i = true ∧ v = false then [Line.errInodeMarkedUsedButInvalid i] else [])
    ++ (if inodeBitmap img i = false ∧ v = true then [Line.errInodeValidNotMarked i] else [])
  if v = true then
    let used := fun j => if j = i then true else s.inodeUsed j
    if MAX_DATA_BLOCKS ≤ ino.direct then
      { inodeUsed := used
        dataBlockUsed := s.dataBlockUsed
        blockRefCount := s.blockRefCount
        output := out1 ++ [Line.errInvalidDirectBlock i ino.direct] }
    else
      { inodeUsed := used
        dataBlockUsed := fun j => if j = ino.direct then true else s.dataBlockUsed j
        blockRefCount := fun j => if j = ino.direct then s.blockRefCount j + 1 else s.blockRefCount j
        output := out1 ++ (if dataBitmap img ino.direct = false then [Line.errRefBlockNotMarked i ino.direct] else []) }
  else
    { s with output := out1 }

/-- `checkInodes` (lines 111-147): Pass 1 over all inode indices. -/
def checkInodes (img : Image) : ScanState :=
  (List.range MAX_INODES).foldl (checkInodesStep img) initState

/-- One iteration of the `checkDataBitmap` loop body (lines 157-169). -/
def checkDataBitmapStep (img : Image) (s : ScanState) (out : List Line) (b : Nat) : List Line :=
  let out := out ++ (if dataBitmap img b = true ∧ s.dataBlockUsed b = false then [Line.errDataMarkedNotReferenced b] else [])
  let out := out ++ (if dataBitmap img b = false ∧ s.dataBlockUsed b = true then [Line.errDataUsedNotMarked b] else [])
  out ++ (if 1 < s.blockRefCount b then [Line.errDataMultipleRefs b] else [])

/-- `checkDataBitmap` (lines 156-170): Pass 2. -/
def checkDataBitmap (img : Image) (s : ScanState) : List Line :=
  (List.range MAX_DATA_BLOCKS).foldl (checkDataBitmapStep img s) []

/-- One iteration of the `checkInodeBitmap` loop body (lines 181-191); the
first component is `errorCount`. -/
def checkInodeBitmapStep (img : Image) (s : ScanState) (p : Nat × List Line) (i : Nat) : Nat × List Line :=
  let p := if inodeBitmap img i = true ∧ s.inodeUsed i = false then
    (p.1 + 1, p.2 ++ [Line.errInodeMarkedNotUsed i]) else p
  if inodeBitmap img i = false ∧ s.inodeUsed i = true then
    (p.1 + 1, p.2 ++ [Line.errInodeUsedNotMarked i]) else p

/-- `checkInodeBitmap` (lines 179-195): Pass 3, with its success line when
`errorCount` stayed zero. -/
def checkInodeBitmap (img : Image) (s : ScanState) : List Line :=
  let p := (List.range MAX_INODES).foldl (checkInodeBitmapStep img s) (0, [])
  p.2 ++ (if p.1 = 0 then [Line.okInodeBitmapConsistent] else [])

/-- One iteration of the `checkDuplicateBlocks` loop body (lines 206-211);
the first component is `duplicateFound`. -/
def checkDuplicateBlocksStep (s : ScanState) (p : Bool × List Line) (b : Nat) : Bool × List Line :=
  if 1 < s.blockRefCount b then (true, p.2 ++ [Line.errDataMultipleRefs b]) else p

/-- `checkDuplicateBlocks` (lines 204-215): Pass 4, with its success line
when no duplicate was found. -/
def checkDuplicateBlocks (s : ScanState) : List Line :=
  let p := (List.range MAX_DATA_BLOCKS).foldl (checkDuplicateBlocksStep s) (false, [])
  p.2 ++ (if p.1 = false then [Line.okNoDuplicates] else [])

/-- One iteration of the `checkBadBlocks` loop body (lines 229-259); the
first component is `badBlockFound`. -/
def checkBadBlocksStep (img : Image) (p : Bool × List Line) (i : Nat) : Bool × List Line :=
  let ino := readInode img i
  if isValid ino = false then p
  else
    let p := if MAX_DATA_BLOCKS ≤ ino.direct then
      (true, p.2 ++ [Line.errInvalidDirectBlock i ino.direct]) else p
    let p := if MAX_DATA_BLOCKS ≤ ino.indirect ∧ ino.indirect ≠ 0 then
      (true, p.2 ++ [Line.errBadIndirect i ino.indirect]) else p
    let p := if MAX_DATA_BLOCKS ≤ ino.doubleIndirect ∧ ino.doubleIndirect ≠ 0 then
      (true, p.2 ++ [Line.errBadDoubleIndirect i ino.doubleIndirect]) else p
    if MAX_DATA_BLOCKS ≤ ino.tripleIndirect ∧ ino.tripleIndirect ≠ 0 then
      (true, p.2 ++ [Line.errBadTripleIndirect i ino.tripleIndirect]) else p

/-- `checkBadBlocks` (lines 224-264): Pass 5, with its success line when no
bad pointer was found. -/
def checkBadBlocks (img : Image) : List Line :=
  let p := (List.range MAX_INODES).foldl (checkBadBlocksStep img) (false, [])
  p.2 ++ (if p.1 = false then [Line.okNoBadBlocks] else [])

/-- The full diagnostic output of one run, in the order `main` produces it
(lines 282-299): superblock validation, banners, Pass 1, Pass 3 before
Pass 2, Pass 4, Pass 5. -/
def runChecker (img : Image) : List Line :=
  let s := checkInodes img
  readSuperblockOut img ++ [Line.bannerSuperblock] ++ [Line.bannerBitmapsLoaded]
    ++ s.output ++ [Line.bannerInodeChecks]
    ++ checkInodeBitmap img s ++ checkDataBitmap img s ++ [Line.bannerBitmapChecks]
    ++ checkDuplicateBlocks s ++ checkBadBlocks img ++ [Line.bannerBlockRefChecks]

/-- The two fatal error messages `main` can print to the error stream. -/
inductive ErrMsg where
  | usage
  | openFailed
  deriving DecidableEq

/-- The observable outcome of one invocation. -/
structure RunResult where
  exitCode : Nat
  stdout : List Line
  stderr : List ErrMsg
  deriving DecidableEq

/-- `main` (lines 270-303): wrong argument count and unopenable file are the
only fatal cases; otherwise all checks run and the exit code is 0. -/
def task1Main (argc : Nat) (file : Option Image) : RunResult :=
  if argc ≠ 2 then { exitCode := 1, stdout := [], stderr := [ErrMsg.usage] }
  else
    match file with
    | none => { exitCode := 1, stdout := [], stderr := [ErrMsg.openFailed] }
    | some img => { exitCode := 0, stdout := runChecker img, stderr := [] }

/-! Generic shapes of the pass loops. -/

/-- A loop that only appends per-index output. -/
lemma foldl_out_eq {g : Nat → List Line} {step : List Line → Nat → List Line}
    (hstep : ∀ out i, step out i = out ++ g i) :
    ∀ (L : List Nat) (out : List Line), L.foldl step out = out ++ L.flatMap g := by
  intro L
  induction L with
  | nil => intro out; simp
  | cons a L ih =>
    intro out
    rw [List.foldl_cons, hstep, ih]
    simp [List.flatMap_cons, List.append_assoc]

/-- A loop that accumulates a found-flag and appends per-index output. -/
lemma foldl_flag_eq {c : Nat → Bool} {g : Nat → List Line}
    {step : Bool × List Line → Nat → Bool × List Line}
    (hstep : ∀ p i, step p i = (p.1 || c i, p.2 ++ g i)) :
    ∀ (L : List Nat) (b : Bool) (out : List Line),
      L.foldl step (b, out) = (b || L.any c, out ++ L.flatMap g) := by
  intro L
  induction L with
  | nil => intro b out; simp
  | cons a L ih =>
    intro b out
    rw [List.foldl_cons, hstep, ih]
    simp [List.any_cons, List.flatMap_cons, Bool.or_assoc, List.append_assoc]

/-- A loop that accumulates an error count and appends per-index output. -/
lemma foldl_count_eq {c : Nat → Nat} {g : Nat → List Line}
    {step : Nat × List Line → Nat → Nat × List Line}
    (hstep : ∀ p i, step p i = (p.1 + c i, p.2 ++ g i)) :
    ∀ (L : List Nat) (k : Nat) (out : List Line),
      L.foldl step (k, out) = (k + (L.map c).sum, out ++ L.flatMap g) := by
  intro L
  induction L with
  | nil => intro k out; simp
  | cons a L ih =>
    intro k out
    rw [List.foldl_cons, hstep, ih]
    simp [List.flatMap_cons, Nat.add_assoc, List.append_assoc]

/-- Two folds agree when their step functions agree on the traversed list. -/
lemma foldl_congr_of_mem {β : Type} {f g : β → Nat → β} :
    ∀ (L : List Nat), (∀ i ∈ L, ∀ s, f s i = g s i) → ∀ s : β, L.foldl f s = L.foldl g s := by
  intro L
  induction L with
  | nil => intro _ s; rfl
  | cons a L ih =>
    intro h s
    rw [List.foldl_cons, List.foldl_cons, h a (by simp)]
    exact ih (fun i hi s2 => h i (by simp [hi]) s2) _

/-- Membership in a conditionally emitted list. -/
lemma mem_ite_nil {α : Type} {c : Prop} [Decidable c] {a : α} {l : List α} :
    (a ∈ if c then l else []) ↔ c ∧ a ∈ l := by
  by_cases h : c <;> simp [h]

/-- Membership in a conditionally emitted single line. -/
lemma mem_ite_singleton {α : Type} {c : Prop} [Decidable c] {a b : α} :
    (a ∈ if c then [b] else []) ↔ c ∧ a = b := by
  by_cases h : c <;> simp [h]

/-! Pass 1: characterisation of the loop body and of the final state. -/

/-- The diagnostic lines Pass 1 prints for inode `i`. -/
def pass1Seg (img : Image) (i : Nat) : List Line :=
  (if inodeBitmap img i = true ∧ isValid (readInode img i) = false then
    [Line.errInodeMarkedUsedButInvalid i] else [])
    ++ (if inodeBitmap img i = false ∧ isValid (readInode img i) = true then
      [Line.errInodeValidNotMarked i] else [])
    ++ (if isValid (readInode img i) = true then
        (if MAX_DATA_BLOCKS ≤ (readInode img i).direct then
          [Line.errInvalidDirectBlock i (readInode img i).direct]
         else if dataBitmap img (readInode img i).direct = false then
          [Line.errRefBlockNotMarked i (readInode img i).direct]
         else [])
        else [])

lemma checkInodesStep_inodeUsed (img : Image) (s : ScanState) (i j : Nat) :
    (checkInodesStep img s i).inodeUsed j =
      (s.inodeUsed j || (decide (j = i) && isValid (readInode img i))) := by
  by_cases hv : isValid (readInode img i) = true
  · by_cases hd : MAX_DATA_BLOCKS ≤ (readInode img i).direct
    · by_cases hj : j = i <;> simp [checkInodesStep, hv, hd, hj]
    · by_cases hj : j = i <;> simp [checkInodesStep, hv, hd, hj]
  · rw [Bool.not_eq_true] at hv
    simp [checkInodesStep, hv]

lemma checkInodesStep_dataBlockUsed (img : Image) (s : ScanState) (i j : Nat) :
    (checkInodesStep img s i).dataBlockUsed j =
      (s.dataBlockUsed j ||
        decide (isValid (readInode img i) = true ∧
          (readInode img i).direct < MAX_DATA_BLOCKS ∧ j = (readInode img i).direct)) := by
  by_cases hv : isValid (readInode img i) = true
  · by_cases hd : MAX_DATA_BLOCKS ≤ (readInode img i).direct
    · simp [checkInodesStep, hv, hd, Nat.not_lt.mpr hd]
    · by_cases hj : j = (readInode img i).direct <;>
        simp [checkInodesStep, hv, hd, hj, Nat.lt_of_not_le hd]
  · rw [Bool.not_eq_true] at hv
    simp [checkInodesStep, hv]

lemma checkInodesStep_blockRefCount (img : Image) (s : ScanState) (i j : Nat) :
    (checkInodesStep img s i).blockRefCount j =
      s.blockRefCount j +
        (if isValid (readInode img i) = true ∧
            (readInode img i).direct < MAX_DATA_BLOCKS ∧ j = (readInode img i).direct
         then 1 else 0) := by
  by_cases hv : isValid (readInode img i) = true
  · by_cases hd : MAX_DATA_BLOCKS ≤ (readInode img i).direct
    · simp [checkInodesStep, hv, hd, Nat.not_lt.mpr hd]
    · by_cases hj : j = (readInode img i).direct <;>
        simp [checkInodesStep, hv, hd, hj, Nat.lt_of_not_le hd]
  · rw [Bool.not_eq_true] at hv
    simp [checkInodesStep, hv]

lemma checkInodesStep_output (img : Image) (s : ScanState) (i : Nat) :
    (checkInodesStep img s i).output = s.output ++ pass1Seg img i := by
  by_cases hv : isValid (readInode img i) = true
  · by_cases hd : MAX_DATA_BLOCKS ≤ (readInode img i).direct
    · simp [checkInodesStep, pass1Seg, hv, hd, List.append_assoc]
    · by_cases hdb : dataBitmap img (readInode img i).direct = false <;>
        simp [checkInodesStep, pass1Seg, hv, hd, hdb, List.append_assoc]
  · rw [Bool.not_eq_true] at hv
    simp [checkInodesStep, pass1Seg, hv, List.append_assoc]

lemma checkInodes_fold_inodeUsed (img : Image) :
    ∀ (L : List Nat) (s : ScanState) (j : Nat),
      (L.foldl (checkInodesStep img) s).inodeUsed j =
        (s.inodeUsed j || L.any (fun i => decide (j = i) && isValid (readInode img i))) := by
  intro L
  induction L with
  | nil => intro s j; simp
  | cons a L ih =>
    intro s j
    rw [List.foldl_cons, ih, checkInodesStep_inodeUsed]
    simp [List.any_cons, Bool.or_assoc]

lemma checkInodes_fold_dataBlockUsed (img : Image) :
    ∀ (L : List Nat) (s : ScanState) (j : Nat),
      (L.foldl (checkInodesStep img) s).dataBlockUsed j =
        (s.dataBlockUsed j || L.any (fun i =>
          decide (isValid (readInode img i) = true ∧
            (readInode img i).direct < MAX_DATA_BLOCKS ∧ j = (readInode img i).direct))) := by
  intro L
  induction L with
  | nil => intro s j; simp
  | cons a L ih =>
    intro s j
    rw [List.foldl_cons, ih, checkInodesStep_dataBlockUsed]
    simp [List.any_cons, Bool.or_assoc]

lemma checkInodes_fold_blockRefCount (img : Image) :
    ∀ (L : List Nat) (s : ScanState) (j : Nat),
      (L.foldl (checkInodesStep img) s).blockRefCount j =
        s.blockRefCount j + L.countP (fun i =>
          decide (isValid (readInode img i) = true ∧
            (readInode img i).direct < MAX_DATA_BLOCKS ∧ j = (readInode img i).direct)) := by
  intro L
  induction L with
  | nil => intro s j; simp
  | cons a L ih =>
    intro s j
    rw [List.foldl_cons, ih, checkInodesStep_blockRefCount]
    by_cases hc : isValid (readInode img a) = true ∧
        (readInode img a).direct < MAX_DATA_BLOCKS ∧ j = (readInode img a).direct <;>
      simp [List.countP_cons, hc] <;> omega

lemma checkInodes_fold_output (img : Image) :
    ∀ (L : List Nat) (s : ScanState),
      (L.foldl (checkInodesStep img) s).output = s.output ++ L.flatMap (pass1Seg img) := by
  intro L
  induction L with
  | nil => intro s; simp
  | cons a L ih =>
    intro s
    rw [List.foldl_cons, ih, checkInodesStep_output]
    simp [List.flatMap_cons, List.append_assoc]

/-! Pass 2: characterisation. -/

/-- The diagnostic lines Pass 2 prints for data block `b`. -/
def pass2Seg (img : Image) (s : ScanState) (b : Nat) : List Line :=
  (if dataBitmap img b = true ∧ s.dataBlockUsed b = false then
    [Line.errDataMarkedNotReferenced b] else [])
    ++ (if dataBitmap img b = false ∧ s.dataBlockUsed b = true then
      [Line.errDataUsedNotMarked b] else [])
    ++ (if 1 < s.blockRefCount b then [Line.errDataMultipleRefs b] else [])

lemma checkDataBitmapStep_eq (img : Image) (s : ScanState) (out : List Line) (b : Nat) :
    checkDataBitmapStep img s out b = out ++ pass2Seg img s b := by
  simp [checkDataBitmapStep, pass2Seg, List.append_assoc]

lemma checkDataBitmap_eq (img : Image) (s : ScanState) :
    checkDataBitmap img s = (List.range MAX_DATA_BLOCKS).flatMap (pass2Seg img s) := by
  unfold checkDataBitmap
  rw [foldl_out_eq (checkDataBitmapStep_eq img s)]
  rfl

/-! Pass 3: characterisation. -/

/-- The diagnostic lines Pass 3 prints for inode index `i`. -/
def pass3Seg (img : Image) (s : ScanState) (i : Nat) : List Line :=
  (if inodeBitmap img i = true ∧ s.inodeUsed i = false then
    [Line.errInodeMarkedNotUsed i] else [])
    ++ (if inodeBitmap img i = false ∧ s.inodeUsed i = true then
      [Line.errInodeUsedNotMarked i] else [])

/-- The contribution of inode index `i` to Pass 3's `errorCount`. -/
def pass3Count (img : Image) (s : ScanState) (i : Nat) : Nat :=
  (if inodeBitmap img i = true ∧ s.inodeUsed i = false then 1 else 0)
    + (if inodeBitmap img i = false ∧ s.inodeUsed i = true then 1 else 0)

lemma checkInodeBitmapStep_eq (img : Image) (s : ScanState) (p : Nat × List Line) (i : Nat) :
    checkInodeBitmapStep img s p i = (p.1 + pass3Count img s i, p.2 ++ pass3Seg img s i) := by
  by_cases h1 : inodeBitmap img i = true ∧ s.inodeUsed i = false
  · by_cases h2 : inodeBitmap img i = false ∧ s.inodeUsed i = true
    · exact absurd (h1.1.symm.trans h2.1) (by decide)
    · simp [checkInodeBitmapStep, pass3Seg, pass3Count, h1, h2]
  · by_cases h2 : inodeBitmap img i = false ∧ s.inodeUsed i = true <;>
      simp [checkInodeBitmapStep, pass3Seg, pass3Count, h1, h2]

lemma checkInodeBitmap_eq (img : Image) (s : ScanState) :
    checkInodeBitmap img s =
      (List.range MAX_INODES).flatMap (pass3Seg img s)
        ++ (if ((List.range MAX_INODES).map (pass3Count img s)).sum = 0 then
          [Line.okInodeBitmapConsistent] else []) := by
  unfold checkInodeBitmap
  rw [foldl_count_eq (checkInodeBitmapStep_eq img s)]
  simp

/-! Pass 4: characterisation. -/

/-- The diagnostic line Pass 4 prints for data block `b`. -/
def dupSeg (s : ScanState) (b : Nat) : List Line :=
  if 1 < s.blockRefCount b then [Line.errDataMultipleRefs b] else []

lemma checkDuplicateBlocksStep_eq (s : ScanState) (p : Bool × List Line) (b : Nat) :
    checkDuplicateBlocksStep s p b =
      (p.1 || decide (1 < s.blockRefCount b), p.2 ++ dupSeg s b) := by
  by_cases h : 1 < s.blockRefCount b <;> simp [checkDuplicateBlocksStep, dupSeg, h]

lemma checkDuplicateBlocks_eq (s : ScanState) :
    checkDuplicateBlocks s =
      (List.range MAX_DATA_BLOCKS).flatMap (dupSeg s)
        ++ (if ((List.range MAX_DATA_BLOCKS).any fun b => decide (1 < s.blockRefCount b)) = false
          then [Line.okNoDuplicates] else []) := by
  unfold checkDuplicateBlocks
  rw [foldl_flag_eq (checkDuplicateBlocksStep_eq s)]
  simp

/-! Pass 5: characterisation. -/

/-- Whether some pointer of inode `i` is flagged by Pass 5. -/
def badPredB (img : Image) (i : Nat) : Bool :=
  isValid (readInode img i) &&
    (decide (MAX_DATA_BLOCKS ≤ (readInode img i).direct) ||
     decide (MAX_DATA_BLOCKS ≤ (readInode img i).indirect ∧ (readInode img i).indirect ≠ 0) ||
     decide (MAX_DATA_BLOCKS ≤ (readInode img i).doubleIndirect ∧ (readInode img i).doubleIndirect ≠ 0) ||
     decide (MAX_DATA_BLOCKS ≤ (readInode img i).tripleIndirect ∧ (readInode img i).tripleIndirect ≠ 0))

/-- The diagnostic lines Pass 5 prints for inode `i`. -/
def badSeg (img : Image) (i : Nat) : List Line :=
  if isValid (readInode img i) = true then
    (if MAX_DATA_BLOCKS ≤ (readInode img i).direct then
      [Line.errInvalidDirectBlock i (readInode img i).direct] else [])
      ++ (if MAX_DATA_BLOCKS ≤ (readInode img i).indirect ∧ (readInode img i).indirect ≠ 0 then
        [Line.errBadIndirect i (readInode img i).indirect] else [])
      ++ (if MAX_DATA_BLOCKS ≤ (readInode img i).doubleIndirect ∧ (readInode img i).doubleIndirect ≠ 0 then
        [Line.errBadDoubleIndirect i (readInode img i).doubleIndirect] else [])
      ++ (if MAX_DATA_BLOCKS ≤ (readInode img i).tripleIndirect ∧ (readInode img i).tripleIndirect ≠ 0 then
        [Line.errBadTripleIndirect i (readInode img i).tripleIndirect] else [])
  else []

lemma checkBadBlocksStep_eq (img : Image) (p : Bool × List Line) (i : Nat) :
    checkBadBlocksStep img p i = (p.1 || badPredB img i, p.2 ++ badSeg img i) := by
  cases hv : isValid (readInode img i) with
  | false => simp [checkBadBlocksStep, badPredB, badSeg, hv]
  | true =>
    by_cases h1 : MAX_DATA_BLOCKS ≤ (readInode img i).direct <;>
      by_cases h2 : MAX_DATA_BLOCKS ≤ (readInode img i).indirect ∧ (readInode img i).indirect ≠ 0 <;>
      by_cases h3 : MAX_DATA_BLOCKS ≤ (readInode img i).doubleIndirect ∧ (readInode img i).doubleIndirect ≠ 0 <;>
      by_cases h4 : MAX_DATA_BLOCKS ≤ (readInode img i).tripleIndirect ∧ (readInode img i).tripleIndirect ≠ 0 <;>
      simp [checkBadBlocksStep, badPredB, badSeg, hv, h1, h2, h3, h4, List.append_assoc]

lemma checkBadBlocks_eq (img : Image) :
    checkBadBlocks img =
      (List.range MAX_INODES).flatMap (badSeg img)
        ++ (if ((List.range MAX_INODES).any (badPredB img)) = false
          then [Line.okNoBadBlocks] else []) := by
  unfold checkBadBlocks
  rw [foldl_flag_eq (checkBadBlocksStep_eq img)]
  simp

/-! Concrete images used by witnesses and counterexamples. -/

/-- The all-zero image: every superblock field 0, all bitmap bits clear,
every inode free (`links = 0`). -/
def imgAllZero : Image := fun _ => 0

/-- An image whose inode bitmap marks inode 0 used and whose data bitmap
marks block 0 used, while every inode is free. -/
def imgBitmapsSet : Image := fun off =>
  if off = 4096 then 1 else if off = 8192 then 1 else 0

/-- An image agreeing with `imgAllZero` on blocks 0-7 but with every byte of
the data region (blocks 8-63) set to 7. -/
def imgDataJunk : Image := fun off => if DATA_BLOCK_START * BLOCK_SIZE ≤ off then 7 else 0

/-- A superblock-only image whose `inodeBitmapBlock` and `dataBitmapBlock`
fields are both 99 while every other superblock field is correct. -/
def imgTwoBadPointers : Image := fun off =>
  if off = 0 then 77 else if off = 1 then 211 else
  if off = 3 then 16 else if off = 6 then 64 else
  if off = 10 then 99 else if off = 14 then 99 else
  if off = 18 then 3 else if off = 22 then 8 else
  if off = 27 then 1 else if off = 30 then 80 else 0

/-! C2: after Pass 1, the observed-usage flag of every inode index equals its
decoded validity. -/

/-- C2: for every inode index `i < MAX_INODES`, after the Pass-1 scan
`inodeUsed i` is true iff the decoded inode at `i` has `links > 0` and
`dtime = 0` (the flags start false in `initState`). -/
theorem c2_inode_used_observed (img : Image) (i : Nat) (hi : i < MAX_INODES) :
    (checkInodes img).inodeUsed i = isValid (readInode img i) := by
  unfold checkInodes
  rw [checkInodes_fold_inodeUsed]
  simp only [initState, Bool.false_or]
  cases hv : isValid (readInode img i) with
  | true =>
    apply List.any_eq_true.mpr
    exact ⟨i, List.mem_range.mpr hi, by simp [hv]⟩
  | false =>
    apply List.any_eq_false.mpr
    intro k hk
    by_cases hik : i = k
    · subst hik; simp [hv]
    · simp [hik]

/-- C2 witness: the theorem applied to the all-zero image at inode 0. -/
theorem c2_witness :
    (checkInodes imgAllZero).inodeUsed 0 = isValid (readInode imgAllZero 0) :=
  c2_inode_used_observed imgAllZero 0 (by decide)

/-! C1: the reference count of every data block equals the number of valid
inodes whose direct pointer is that block, and a count above 1 produces both
the Pass-2 and the Pass-4 duplicate finding. -/

/-- C1: for every data block index `b < MAX_DATA_BLOCKS`, after Pass 1
`blockRefCount b` counts the inode indices whose decoded inode is valid and
has `direct = b`; and whenever that count exceeds 1, the Pass-2 output and
the Pass-4 output each contain the duplicate-reference finding for `b`. -/
theorem c1_block_refcount (img : Image) (b : Nat) (hb : b < MAX_DATA_BLOCKS) :
    (checkInodes img).blockRefCount b =
      (List.range MAX_INODES).countP
        (fun i => isValid (readInode img i) && decide ((readInode img i).direct = b)) ∧
    (1 < (checkInodes img).blockRefCount b →
      Line.errDataMultipleRefs b ∈ checkDataBitmap img (checkInodes img) ∧
      Line.errDataMultipleRefs b ∈ checkDuplicateBlocks (checkInodes img)) := by
  constructor
  · unfold checkInodes
    rw [checkInodes_fold_blockRefCount]
    simp only [initState, Nat.zero_add]
    apply List.countP_congr
    intro k hk
    by_cases hd : (readInode img k).direct = b
    · cases hv : isValid (readInode img k) <;> simp [hv, hd, hb]
    · simp only [hd, decide_eq_true_eq]
      simp [hd]
      intro _ _ h
      exact hd h.symm
  · intro h
    constructor
    · rw [checkDataBitmap_eq]
      exact List.mem_flatMap.mpr ⟨b, List.mem_range.mpr hb,
        by simp [pass2Seg, mem_ite_singleton, mem_ite_nil, h]⟩
    · rw [checkDuplicateBlocks_eq]
      exact List.mem_append_left _ (List.mem_flatMap.mpr
        ⟨b, List.mem_range.mpr hb, by simp [dupSeg, h]⟩)

/-- C1 witness: the theorem applied to the all-zero image at block 5. -/
theorem c1_witness :
    (checkInodes imgAllZero).blockRefCount 5 =
      (List.range MAX_INODES).countP
        (fun i => isValid (readInode imgAllZero i) &&
          decide ((readInode imgAllZero i).direct = 5)) ∧
    (1 < (checkInodes imgAllZero).blockRefCount 5 →
      Line.errDataMultipleRefs 5 ∈ checkDataBitmap imgAllZero (checkInodes imgAllZero) ∧
      Line.errDataMultipleRefs 5 ∈ checkDuplicateBlocks (checkInodes imgAllZero)) :=
  c1_block_refcount imgAllZero 5 (by decide)

/-! C4: the Pass-5 bad-pointer scan. -/

/-- All four pointers of an inode pass the Pass-5 range checks: the direct
pointer is in range, and each indirect pointer is in range or 0. -/
def goodPointers (ino : Inode) : Bool :=
  decide (ino.direct < MAX_DATA_BLOCKS) &&
    (decide (ino.indirect < MAX_DATA_BLOCKS) || decide (ino.indirect = 0)) &&
    (decide (ino.doubleIndirect < MAX_DATA_BLOCKS) || decide (ino.doubleIndirect = 0)) &&
    (decide (ino.tripleIndirect < MAX_DATA_BLOCKS) || decide (ino.tripleIndirect = 0))

lemma badPredB_eq_false (img : Image) (i : Nat) :
    badPredB img i = false ↔
      (isValid (readInode img i) = true → goodPointers (readInode img i) = true) := by
  cases hv : isValid (readInode img i) with
  | false => simp [badPredB, hv]
  | true =>
    simp only [badPredB, goodPointers, hv, Bool.true_and, forall_const, Bool.or_eq_false_iff,
      Bool.and_eq_true, Bool.or_eq_true, decide_eq_false_iff_not, decide_eq_true_eq]
    omega

lemma badSeg_mem_direct (img : Image) (j i b : Nat) :
    Line.errInvalidDirectBlock i b ∈ badSeg img j ↔
      j = i ∧ isValid (readInode img j) = true ∧
        MAX_DATA_BLOCKS ≤ (readInode img j).direct ∧ (readInode img j).direct = b := by
  unfold badSeg
  by_cases hv : isValid (readInode img j) = true
  · rw [if_pos hv]
    simp only [List.mem_append, mem_ite_singleton]
    constructor
    · rintro (((⟨hle, heq⟩ | ⟨hc, heq⟩) | ⟨hc, heq⟩) | ⟨hc, heq⟩)
      · injection heq with h1 h2
        exact ⟨h1.symm, hv, hle, h2.symm⟩
      · cases heq
      · cases heq
      · cases heq
    · rintro ⟨rfl, hv2, hle, hb⟩
      exact Or.inl (Or.inl (Or.inl ⟨hle, by rw [hb]⟩))
  · rw [if_neg hv]
    simp only [List.not_mem_nil, false_iff]
    rintro ⟨rfl, hv2, _⟩
    exact hv hv2

lemma badSeg_mem_indirect (img : Image) (j i b : Nat) :
    Line.errBadIndirect i b ∈ badSeg img j ↔
      j = i ∧ isValid (readInode img j) = true ∧
        (MAX_DATA_BLOCKS ≤ (readInode img j).indirect ∧ (readInode img j).indirect ≠ 0) ∧
        (readInode img j).indirect = b := by
  unfold badSeg
  by_cases hv : isValid (readInode img j) = true
  · rw [if_pos hv]
    simp only [List.mem_append, mem_ite_singleton]
    constructor
    · rintro (((⟨hc, heq⟩ | ⟨hc, heq⟩) | ⟨hc, heq⟩) | ⟨hc, heq⟩)
      · cases heq
      · injection heq with h1 h2
        exact ⟨h1.symm, hv, hc, h2.symm⟩
      · cases heq
      · cases heq
    · rintro ⟨rfl, hv2, hc, hb⟩
      exact Or.inl (Or.inl (Or.inr ⟨hc, by rw [hb]⟩))
  · rw [if_neg hv]
    simp only [List.not_mem_nil, false_iff]
    rintro ⟨rfl, hv2, _⟩
    exact hv hv2

lemma badSeg_mem_double (img : Image) (j i b : Nat) :
    Line.errBadDoubleIndirect i b ∈ badSeg img j ↔
      j = i ∧ isValid (readInode img j) = true ∧
        (MAX_DATA_BLOCKS ≤ (readInode img j).doubleIndirect ∧ (readInode img j).doubleIndirect ≠ 0) ∧
        (readInode img j).doubleIndirect = b := by
  unfold badSeg
  by_cases hv : isValid (readInode img j) = true
  · rw [if_pos hv]
    simp only [List.mem_append, mem_ite_singleton]
    constructor
    · rintro (((⟨hc, heq⟩ | ⟨hc, heq⟩) | ⟨hc, heq⟩) | ⟨hc, heq⟩)
      · cases heq
      · cases heq
      · injection heq with h1 h2
        exact ⟨h1.symm, hv, hc, h2.symm⟩
      · cases heq
    · rintro ⟨rfl, hv2, hc, hb⟩
      exact Or.inl (Or.inr ⟨hc, by rw [hb]⟩)
  · rw [if_neg hv]
    simp only [List.not_mem_nil, false_iff]
    rintro ⟨rfl, hv2, _⟩
    exact hv hv2

lemma badSeg_mem_triple (img : Image) (j i b : Nat) :
    Line.errBadTripleIndirect i b ∈ badSeg img j ↔
      j = i ∧ isValid (readInode img j) = true ∧
        (MAX_DATA_BLOCKS ≤ (readInode img j).tripleIndirect ∧ (readInode img j).tripleIndirect ≠ 0) ∧
        (readInode img j).tripleIndirect = b := by
  unfold badSeg
  by_cases hv : isValid (readInode img j) = true
  · rw [if_pos hv]
    simp only [List.mem_append, mem_ite_singleton]
    constructor
    · rintro (((⟨hc, heq⟩ | ⟨hc, heq⟩) | ⟨hc, heq⟩) | ⟨hc, heq⟩)
      · cases heq
      · cases heq
      · cases heq
      · injection heq with h1 h2
        exact ⟨h1.symm, hv, hc, h2.symm⟩
    · rintro ⟨rfl, hv2, hc, hb⟩
      exact Or.inr ⟨hc, by rw [hb]⟩
  · rw [if_neg hv]
    simp only [List.not_mem_nil, false_iff]
    rintro ⟨rfl, hv2, _⟩
    exact hv hv2

lemma badSeg_not_ok (img : Image) (j : Nat) : Line.okNoBadBlocks ∉ badSeg img j := by
  unfold badSeg
  by_cases hv : isValid (readInode img j) = true
  · rw [if_pos hv]
    simp only [List.mem_append, mem_ite_singleton]
    rintro (((⟨_, heq⟩ | ⟨_, heq⟩) | ⟨_, heq⟩) | ⟨_, heq⟩) <;> cases heq
  · rw [if_neg hv]
    simp

lemma mem_ok_checkBadBlocks (img : Image) :
    Line.okNoBadBlocks ∈ checkBadBlocks img ↔
      ∀ j, j < MAX_INODES → isValid (readInode img j) = true →
        goodPointers (readInode img j) = true := by
  rw [checkBadBlocks_eq]
  simp only [List.mem_append, List.mem_flatMap, List.mem_range, mem_ite_nil,
    List.mem_singleton]
  constructor
  · rintro (⟨j, _, hmem⟩ | ⟨hany, _⟩)
    · exact absurd hmem (badSeg_not_ok img j)
    · intro j hj hv
      have hfalse := List.any_eq_false.mp hany j (List.mem_range.mpr hj)
      rw [Bool.not_eq_true] at hfalse
      exact (badPredB_eq_false img j).mp hfalse hv
  · intro hgood
    refine Or.inr ⟨?_, trivial⟩
    apply List.any_eq_false.mpr
    intro j hj
    rw [Bool.not_eq_true, badPredB_eq_false]
    exact hgood j (List.mem_range.mp hj)

lemma badSeg_eq_nil (img : Image) (j : Nat)
    (h : isValid (readInode img j) = true → goodPointers (readInode img j) = true) :
    badSeg img j = [] := by
  unfold badSeg
  by_cases hv : isValid (readInode img j) = true
  · have hg := h hv
    simp only [goodPointers, Bool.and_eq_true, Bool.or_eq_true, decide_eq_true_eq] at hg
    obtain ⟨⟨⟨h1, h2⟩, h3⟩, h4⟩ := hg
    rw [if_pos hv, if_neg (by omega), if_neg (by omega), if_neg (by omega), if_neg (by omega)]
    rfl
  · rw [if_neg hv]

/-- C4: in Pass 5 only valid inodes are checked; each of the four pointers is
flagged exactly when out of range, with 0 exempting the three indirect
pointers but not the direct pointer; and when no pointer of any valid inode
violates the range the output is the single success line. -/
theorem c4_bad_pointer_scan (img : Image) (i b : Nat) :
    (Line.errInvalidDirectBlock i b ∈ checkBadBlocks img ↔
      i < MAX_INODES ∧ isValid (readInode img i) = true ∧
        (readInode img i).direct = b ∧ MAX_DATA_BLOCKS ≤ b) ∧
    (Line.errBadIndirect i b ∈ checkBadBlocks img ↔
      i < MAX_INODES ∧ isValid (readInode img i) = true ∧
        (readInode img i).indirect = b ∧ MAX_DATA_BLOCKS ≤ b ∧ b ≠ 0) ∧
    (Line.errBadDoubleIndirect i b ∈ checkBadBlocks img ↔
      i < MAX_INODES ∧ isValid (readInode img i) = true ∧
        (readInode img i).doubleIndirect = b ∧ MAX_DATA_BLOCKS ≤ b ∧ b ≠ 0) ∧
    (Line.errBadTripleIndirect i b ∈ checkBadBlocks img ↔
      i < MAX_INODES ∧ isValid (readInode img i) = true ∧
        (readInode img i).tripleIndirect = b ∧ MAX_DATA_BLOCKS ≤ b ∧ b ≠ 0) ∧
    (Line.okNoBadBlocks ∈ checkBadBlocks img ↔
      ∀ j, j < MAX_INODES → isValid (readInode img j) = true →
        goodPointers (readInode img j) = true) ∧
    ((∀ j, j < MAX_INODES → isValid (readInode img j) = true →
        goodPointers (readInode img j) = true) →
      checkBadBlocks img = [Line.okNoBadBlocks]) := by
  refine ⟨?_, ?_, ?_, ?_, ?_, ?_⟩
  · rw [checkBadBlocks_eq]
    simp only [List.mem_append, List.mem_flatMap, List.mem_range, badSeg_mem_direct,
      mem_ite_nil, List.mem_singleton]
    constructor
    · rintro (⟨j, hj, rfl, hv, hle, rfl⟩ | ⟨_, heq⟩)
      · exact ⟨hj, hv, rfl, hle⟩
      · cases heq
    · rintro ⟨hi, hv, rfl, hle⟩
      exact Or.inl ⟨i, hi, rfl, hv, hle, rfl⟩
  · rw [checkBadBlocks_eq]
    simp only [List.mem_append, List.mem_flatMap, List.mem_range, badSeg_mem_indirect,
      mem_ite_nil, List.mem_singleton]
    constructor
    · rintro (⟨j, hj, rfl, hv, hc, rfl⟩ | ⟨_, heq⟩)
      · exact ⟨hj, hv, rfl, hc.1, hc.2⟩
      · cases heq
    · rintro ⟨hi, hv, rfl, hle, hne⟩
      exact Or.inl ⟨i, hi, rfl, hv, ⟨hle, hne⟩, rfl⟩
  · rw [checkBadBlocks_eq]
    simp only [List.mem_append, List.mem_flatMap, List.mem_range, badSeg_mem_double,
      mem_ite_nil, List.mem_singleton]
    constructor
    · rintro (⟨j, hj, rfl, hv, hc, rfl⟩ | ⟨_, heq⟩)
      · exact ⟨hj, hv, rfl, hc.1, hc.2⟩
      · cases heq
    · rintro ⟨hi, hv, rfl, hle, hne⟩
      exact Or.inl ⟨i, hi, rfl, hv, ⟨hle, hne⟩, rfl⟩
  · rw [checkBadBlocks_eq]
    simp only [List.mem_append, List.mem_flatMap, List.mem_range, badSeg_mem_triple,
      mem_ite_nil, List.mem_singleton]
    constructor
    · rintro (⟨j, hj, rfl, hv, hc, rfl⟩ | ⟨_, heq⟩)
      · exact ⟨hj, hv, rfl, hc.1, hc.2⟩
      · cases heq
    · rintro ⟨hi, hv, rfl, hle, hne⟩
      exact Or.inl ⟨i, hi, rfl, hv, ⟨hle, hne⟩, rfl⟩
  · exact mem_ok_checkBadBlocks img
  · intro hgood
    rw [checkBadBlocks_eq]
    have h1 : (List.range MAX_INODES).flatMap (badSeg img) = [] := by
      apply List.flatMap_eq_nil_iff.mpr
      intro j hj
      exact badSeg_eq_nil img j (hgood j (List.mem_range.mp hj))
    have h2 : ((List.range MAX_INODES).any (badPredB img)) = false := by
      apply List.any_eq_false.mpr
      intro j hj
      rw [Bool.not_eq_true, badPredB_eq_false]
      exact hgood j (List.mem_range.mp hj)
    rw [h1, h2]
    rfl

/-! C3: superblock validation. -/

/-- C3 counterexample: on `imgTwoBadPointers` both `inodeBitmapBlock` and
`dataBitmapBlock` mismatch their expected locations, yet superblock
validation emits a single combined finding, not one finding per mismatching
field. -/
theorem c3_counterexample :
    (decodeSuperblock (readBlock imgTwoBadPointers SUPERBLOCK_BLOCK_NO)).inodeBitmapBlock ≠
      INODE_BITMAP_BLOCK_NO ∧
    (decodeSuperblock (readBlock imgTwoBadPointers SUPERBLOCK_BLOCK_NO)).dataBitmapBlock ≠
      DATA_BITMAP_BLOCK_NO ∧
    readSuperblockOut imgTwoBadPointers = [Line.errSuperblockPointers] := by
  decide

/-- C3 amended: superblock validation performs six independent checks, none
short-circuiting another - magic, block size, total blocks, one combined
check of the four location pointers (a single finding when any of the four
mismatches), inode record size, and inode count exceeding the maximum; each
finding is present exactly when its condition holds. -/
theorem c3_amended_superblock_checks (img : Image) :
    (Line.errInvalidMagic ∈ readSuperblockOut img ↔
      (decodeSuperblock (readBlock img SUPERBLOCK_BLOCK_NO)).magic ≠ 0xD34D) ∧
    (Line.errInvalidBlockSize ∈ readSuperblockOut img ↔
      (decodeSuperblock (readBlock img SUPERBLOCK_BLOCK_NO)).blockSize ≠ BLOCK_SIZE) ∧
    (Line.errInvalidTotalBlocks ∈ readSuperblockOut img ↔
      (decodeSuperblock (readBlock img SUPERBLOCK_BLOCK_NO)).totalBlocks ≠ TOTAL_BLOCKS) ∧
    (Line.errSuperblockPointers ∈ readSuperblockOut img ↔
      ((decodeSuperblock (readBlock img SUPERBLOCK_BLOCK_NO)).inodeBitmapBlock ≠ INODE_BITMAP_BLOCK_NO ∨
       (decodeSuperblock (readBlock img SUPERBLOCK_BLOCK_NO)).dataBitmapBlock ≠ DATA_BITMAP_BLOCK_NO ∨
       (decodeSuperblock (readBlock img SUPERBLOCK_BLOCK_NO)).inodeTableStart ≠ INODE_TABLE_START_BLOCK ∨
       (decodeSuperblock (readBlock img SUPERBLOCK_BLOCK_NO)).dataBlockStart ≠ DATA_BLOCK_START)) ∧
    (Line.errInvalidInodeSize ∈ readSuperblockOut img ↔
      (decodeSuperblock (readBlock img SUPERBLOCK_BLOCK_NO)).inodeSize ≠ INODE_SIZE) ∧
    (Line.errInodeCountExceeds ∈ readSuperblockOut img ↔
      MAX_INODES < (decodeSuperblock (readBlock img SUPERBLOCK_BLOCK_NO)).inodeCount) := by
  simp only [readSuperblockOut, List.mem_append, mem_ite_singleton]
  refine ⟨?_, ?_, ?_, ?_, ?_, ?_⟩ <;> simp

/-! Line classifiers and segment shapes, for the pass-ordering and
success-line claims. -/

/-- The three success lines of the checker. -/
def isSuccessLine : Line → Bool
  | Line.okInodeBitmapConsistent => true
  | Line.okNoDuplicates => true
  | Line.okNoBadBlocks => true
  | _ => false

/-- Lines only Pass 2 can print. -/
def pass2OnlyLine : Line → Bool
  | Line.errDataMarkedNotReferenced _ => true
  | Line.errDataUsedNotMarked _ => true
  | _ => false

/-- Lines only Pass 3 can print. -/
def pass3OnlyLine : Line → Bool
  | Line.errInodeMarkedNotUsed _ => true
  | Line.errInodeUsedNotMarked _ => true
  | Line.okInodeBitmapConsistent => true
  | _ => false

lemma readSuperblockOut_shape (img : Image) :
    ∀ l ∈ readSuperblockOut img,
      l = Line.errInvalidMagic ∨ l = Line.errInvalidBlockSize ∨
      l = Line.errInvalidTotalBlocks ∨ l = Line.errSuperblockPointers ∨
      l = Line.errInvalidInodeSize ∨ l = Line.errInodeCountExceeds := by
  intro l hl
  simp only [readSuperblockOut, List.mem_append, mem_ite_singleton] at hl
  tauto

lemma pass1Seg_shape (img : Image) (i : Nat) :
    ∀ l ∈ pass1Seg img i,
      (∃ a, l = Line.errInodeMarkedUsedButInvalid a) ∨
      (∃ a, l = Line.errInodeValidNotMarked a) ∨
      (∃ a c, l = Line.errInvalidDirectBlock a c) ∨
      (∃ a c, l = Line.errRefBlockNotMarked a c) := by
  intro l hl
  unfold pass1Seg at hl
  rcases List.mem_append.mp hl with h12 | h3
  · rcases List.mem_append.mp h12 with h1 | h2
    · exact Or.inl ⟨i, (mem_ite_singleton.mp h1).2⟩
    · exact Or.inr (Or.inl ⟨i, (mem_ite_singleton.mp h2).2⟩)
  · rw [mem_ite_nil] at h3
    obtain ⟨-, h3⟩ := h3
    split at h3
    · exact Or.inr (Or.inr (Or.inl ⟨i, _, List.mem_singleton.mp h3⟩))
    · split at h3
      · exact Or.inr (Or.inr (Or.inr ⟨i, _, List.mem_singleton.mp h3⟩))
      · cases h3

lemma pass2Seg_shape (img : Image) (s : ScanState) (b : Nat) :
    ∀ l ∈ pass2Seg img s b,
      (∃ a, l = Line.errDataMarkedNotReferenced a) ∨
      (∃ a, l = Line.errDataUsedNotMarked a) ∨
      (∃ a, l = Line.errDataMultipleRefs a) := by
  intro l hl
  simp only [pass2Seg, List.mem_append, mem_ite_singleton] at hl
  rcases hl with (h | h) | h
  · exact Or.inl ⟨b, h.2⟩
  · exact Or.inr (Or.inl ⟨b, h.2⟩)
  · exact Or.inr (Or.inr ⟨b, h.2⟩)

lemma pass3Seg_shape (img : Image) (s : ScanState) (i : Nat) :
    ∀ l ∈ pass3Seg img s i,
      (∃ a, l = Line.errInodeMarkedNotUsed a) ∨ (∃ a, l = Line.errInodeUsedNotMarked a) := by
  intro l hl
  simp only [pass3Seg, List.mem_append, mem_ite_singleton] at hl
  rcases hl with ⟨-, rfl⟩ | ⟨-, rfl⟩
  · exact Or.inl ⟨i, rfl⟩
  · exact Or.inr ⟨i, rfl⟩

lemma dupSeg_shape (s : ScanState) (b : Nat) :
    ∀ l ∈ dupSeg s b, ∃ a, l = Line.errDataMultipleRefs a := by
  intro l hl
  simp only [dupSeg, mem_ite_singleton] at hl
  exact ⟨b, hl.2⟩

lemma badSeg_shape (img : Image) (i : Nat) :
    ∀ l ∈ badSeg img i,
      (∃ a c, l = Line.errInvalidDirectBlock a c) ∨
      (∃ a c, l = Line.errBadIndirect a c) ∨
      (∃ a c, l = Line.errBadDoubleIndirect a c) ∨
      (∃ a c, l = Line.errBadTripleIndirect a c) := by
  intro l hl
  unfold badSeg at hl
  split at hl
  · simp only [List.mem_append, mem_ite_singleton] at hl
    rcases hl with ((⟨-, rfl⟩ | ⟨-, rfl⟩) | ⟨-, rfl⟩) | ⟨-, rfl⟩
    · exact Or.inl ⟨i, _, rfl⟩
    · exact Or.inr (Or.inl ⟨i, _, rfl⟩)
    · exact Or.inr (Or.inr (Or.inl ⟨i, _, rfl⟩))
    · exact Or.inr (Or.inr (Or.inr ⟨i, _, rfl⟩))
  · cases hl

/-! C5: which passes emit success lines. -/

lemma nat_list_sum_eq_zero (l : List Nat) : l.sum = 0 ↔ ∀ x ∈ l, x = 0 := by
  induction l with
  | nil => simp
  | cons a l ih => simp [ih, Nat.add_eq_zero]

lemma pass3Count_eq_zero (img : Image) (s : ScanState) (i : Nat) :
    pass3Count img s i = 0 ↔ inodeBitmap img i = s.inodeUsed i := by
  cases hb : inodeBitmap img i <;> cases hu : s.inodeUsed i <;> simp [pass3Count, hb, hu]

lemma mem_ok_checkInodeBitmap (img : Image) (s : ScanState) :
    Line.okInodeBitmapConsistent ∈ checkInodeBitmap img s ↔
      ∀ i, i < MAX_INODES → inodeBitmap img i = s.inodeUsed i := by
  rw [checkInodeBitmap_eq]
  simp only [List.mem_append, List.mem_flatMap, List.mem_range, mem_ite_nil,
    List.mem_singleton]
  constructor
  · rintro (⟨j, _, hmem⟩ | ⟨hsum, _⟩)
    · rcases pass3Seg_shape img s j _ hmem with ⟨a, h⟩ | ⟨a, h⟩ <;> cases h
    · intro i hi
      rw [← pass3Count_eq_zero img s i]
      exact (nat_list_sum_eq_zero _).mp hsum _ (List.mem_map.mpr ⟨i, List.mem_range.mpr hi, rfl⟩)
  · intro hall
    refine Or.inr ⟨?_, trivial⟩
    apply (nat_list_sum_eq_zero _).mpr
    intro x hx
    obtain ⟨i, hi, rfl⟩ := List.mem_map.mp hx
    exact (pass3Count_eq_zero img s i).mpr (hall i (List.mem_range.mp hi))

lemma mem_ok_checkDuplicateBlocks (s : ScanState) :
    Line.okNoDuplicates ∈ checkDuplicateBlocks s ↔
      ∀ b, b < MAX_DATA_BLOCKS → s.blockRefCount b ≤ 1 := by
  rw [checkDuplicateBlocks_eq]
  simp only [List.mem_append, List.mem_flatMap, List.mem_range, mem_ite_nil,
    List.mem_singleton]
  constructor
  · rintro (⟨j, _, hmem⟩ | ⟨hany, _⟩)
    · obtain ⟨a, h⟩ := dupSeg_shape s j _ hmem
      cases h
    · intro b hb
      have hfalse := List.any_eq_false.mp hany b (List.mem_range.mpr hb)
      simp only [decide_eq_true_eq] at hfalse
      omega
  · intro hall
    refine Or.inr ⟨?_, trivial⟩
    apply List.any_eq_false.mpr
    intro b hb
    have := hall b (List.mem_range.mp hb)
    simp only [decide_eq_true_eq]
    omega

/-- C5 counterexample: on the all-zero image Pass 4 emits its success line
`okNoDuplicates`, so success lines are not confined to Passes 3 and 5. -/
theorem c5_counterexample :
    Line.okNoDuplicates ∈ checkDuplicateBlocks (checkInodes imgAllZero) ∧
    isSuccessLine Line.okNoDuplicates = true ∧
    Line.okNoDuplicates ≠ Line.okInodeBitmapConsistent ∧
    Line.okNoDuplicates ≠ Line.okNoBadBlocks := by
  refine ⟨?_, rfl, by decide, by decide⟩
  rw [mem_ok_checkDuplicateBlocks]
  intro b hb
  have : (checkInodes imgAllZero).blockRefCount b = 0 := by
    unfold checkInodes
    rw [checkInodes_fold_blockRefCount]
    simp only [initState, Nat.zero_add]
    apply List.countP_eq_zero.mpr
    intro k hk
    simp only [decide_eq_true_eq, not_and]
    intro hv
    simp [isValid, readInode, buf32, readBlock, byteAt, imgAllZero] at hv
  omega

/-- C5 amended: success lines are emitted by Passes 3, 4 and 5, each exactly
when that pass had zero findings; superblock validation, Pass 1 and Pass 2
never emit a success line. -/
theorem c5_amended_success_lines (img : Image) :
    (∀ l ∈ readSuperblockOut img, isSuccessLine l = false) ∧
    (∀ l ∈ (checkInodes img).output, isSuccessLine l = false) ∧
    (∀ l ∈ checkDataBitmap img (checkInodes img), isSuccessLine l = false) ∧
    (Line.okInodeBitmapConsistent ∈ checkInodeBitmap img (checkInodes img) ↔
      ∀ i, i < MAX_INODES → inodeBitmap img i = (checkInodes img).inodeUsed i) ∧
    (Line.okNoDuplicates ∈ checkDuplicateBlocks (checkInodes img) ↔
      ∀ b, b < MAX_DATA_BLOCKS → (checkInodes img).blockRefCount b ≤ 1) ∧
    (Line.okNoBadBlocks ∈ checkBadBlocks img ↔
      ∀ j, j < MAX_INODES → isValid (readInode img j) = true →
        goodPointers (readInode img j) = true) := by
  refine ⟨?_, ?_, ?_, mem_ok_checkInodeBitmap img _, mem_ok_checkDuplicateBlocks _,
    mem_ok_checkBadBlocks img⟩
  · intro l hl
    rcases readSuperblockOut_shape img l hl with rfl | rfl | rfl | rfl | rfl | rfl <;> rfl
  · intro l hl
    unfold checkInodes at hl
    rw [checkInodes_fold_output] at hl
    simp only [initState, List.nil_append] at hl
    obtain ⟨i, _, hmem⟩ := List.mem_flatMap.mp hl
    rcases pass1Seg_shape img i l hmem with ⟨a, rfl⟩ | ⟨a, rfl⟩ | ⟨a, c, rfl⟩ | ⟨a, c, rfl⟩ <;> rfl
  · intro l hl
    rw [checkDataBitmap_eq] at hl
    obtain ⟨b, _, hmem⟩ := List.mem_flatMap.mp hl
    rcases pass2Seg_shape img _ b l hmem with ⟨a, rfl⟩ | ⟨a, rfl⟩ | ⟨a, rfl⟩ <;> rfl

/-! C6: the order of the reconciliation passes in the output. -/

set_option maxRecDepth 10000 in
/-- C6 counterexample: on `imgBitmapsSet` the Pass-3 finding for inode 0
appears in the diagnostic sequence strictly before the Pass-2 finding for
data block 0 (and that Pass-2 finding occurs exactly once), so Pass-2
findings do not all precede Pass-3 findings. -/
theorem c6_counterexample :
    Line.errInodeMarkedNotUsed 0 ∈ runChecker imgBitmapsSet ∧
    Line.errDataMarkedNotReferenced 0 ∈ runChecker imgBitmapsSet ∧
    pass3OnlyLine (Line.errInodeMarkedNotUsed 0) = true ∧
    pass2OnlyLine (Line.errDataMarkedNotReferenced 0) = true ∧
    (runChecker imgBitmapsSet).indexOf (Line.errInodeMarkedNotUsed 0) <
      (runChecker imgBitmapsSet).indexOf (Line.errDataMarkedNotReferenced 0) ∧
    (runChecker imgBitmapsSet).count (Line.errDataMarkedNotReferenced 0) = 1 := by
  decide

/-- C6 amended: the inode-bitmap reconciliation (Pass 3) runs before the
data-bitmap reconciliation (Pass 2): the diagnostic sequence splits into a
prefix with no Pass-2-only line and a suffix with no Pass-3-only line. -/
theorem c6_amended_pass_order (img : Image) :
    ∃ A B, runChecker img = A ++ B ∧
      (∀ l ∈ A, pass2OnlyLine l = false) ∧
      (∀ l ∈ B, pass3OnlyLine l = false) := by
  refine ⟨readSuperblockOut img ++ [Line.bannerSuperblock] ++ [Line.bannerBitmapsLoaded]
      ++ (checkInodes img).output ++ [Line.bannerInodeChecks]
      ++ checkInodeBitmap img (checkInodes img),
    checkDataBitmap img (checkInodes img) ++ [Line.bannerBitmapChecks]
      ++ checkDuplicateBlocks (checkInodes img) ++ checkBadBlocks img
      ++ [Line.bannerBlockRefChecks], ?_, ?_, ?_⟩
  · simp [runChecker, List.append_assoc]
  · intro l hl
    simp only [List.mem_append, List.mem_singleton] at hl
    rcases hl with ((((hsb | rfl) | rfl) | h1) | rfl) | h3
    · rcases readSuperblockOut_shape img l hsb with rfl | rfl | rfl | rfl | rfl | rfl <;> rfl
    · rfl
    · rfl
    · unfold checkInodes at h1
      rw [checkInodes_fold_output] at h1
      simp only [initState, List.nil_append] at h1
      obtain ⟨i, _, hmem⟩ := List.mem_flatMap.mp h1
      rcases pass1Seg_shape img i l hmem with ⟨a, rfl⟩ | ⟨a, rfl⟩ | ⟨a, c, rfl⟩ | ⟨a, c, rfl⟩ <;>
        rfl
    · rfl
    · rw [checkInodeBitmap_eq] at h3
      rcases List.mem_append.mp h3 with hseg | hok
      · obtain ⟨i, _, hmem⟩ := List.mem_flatMap.mp hseg
        rcases pass3Seg_shape img _ i l hmem with ⟨a, rfl⟩ | ⟨a, rfl⟩ <;> rfl
      · rw [mem_ite_nil] at hok
        rw [List.mem_singleton.mp hok.2]
        rfl
  · intro l hl
    simp only [List.mem_append, List.mem_singleton] at hl
    rcases hl with (((h2 | rfl) | h4) | h5) | rfl
    · rw [checkDataBitmap_eq] at h2
      obtain ⟨b, _, hmem⟩ := List.mem_flatMap.mp h2
      rcases pass2Seg_shape img _ b l hmem with ⟨a, rfl⟩ | ⟨a, rfl⟩ | ⟨a, rfl⟩ <;> rfl
    · rfl
    · rw [checkDuplicateBlocks_eq] at h4
      rcases List.mem_append.mp h4 with hseg | hok
      · obtain ⟨b, _, hmem⟩ := List.mem_flatMap.mp hseg
        obtain ⟨a, rfl⟩ := dupSeg_shape _ b l hmem
        rfl
      · rw [mem_ite_nil] at hok
        rw [List.mem_singleton.mp hok.2]
        rfl
    · rw [checkBadBlocks_eq] at h5
      rcases List.mem_append.mp h5 with hseg | hok
      · obtain ⟨i, _, hmem⟩ := List.mem_flatMap.mp hseg
        rcases badSeg_shape img i l hmem with ⟨a, c, rfl⟩ | ⟨a, c, rfl⟩ | ⟨a, c, rfl⟩ | ⟨a, c, rfl⟩ <;>
          rfl
      · rw [mem_ite_nil] at hok
        rw [List.mem_singleton.mp hok.2]
        rfl
    · rfl

/-! C7: the Block Reader never fails. -/

/-- The underlying image file: a length and the byte stored at each offset. -/
structure ImageFile where
  size : Nat
  byte : Nat → Nat

/-- The one I/O error kind of the error model. -/
inductive IoError where
  | ioError
  deriving DecidableEq

/-- How many bytes `fread` can deliver for a request of `len` bytes at
offset `off`. -/
def freadAvail (f : ImageFile) (off len : Nat) : Nat := min len (f.size - off)

/-- `readBlock` (lines 65-68) with the underlying file made explicit: the
return values of `fseek` and `fread` are discarded, so the call always
produces a buffer; a byte past end of file is simply not written and the
buffer keeps its prior contents there. -/
def readBlockFile (f : ImageFile) (blockNum : Nat) (old : Nat → Nat) :
    Except IoError (Nat → Nat) :=
  Except.ok fun j =>
    if blockNum * BLOCK_SIZE + j < f.size then f.byte (blockNum * BLOCK_SIZE + j) % 256
    else old j

/-- C7 counterexample: reading block 0 of an empty file is a short read
(`fread` delivers 0 of `BLOCK_SIZE` bytes), yet `readBlock` does not fail -
it returns a buffer. -/
theorem c7_counterexample :
    freadAvail { size := 0, byte := fun _ => 0 } (0 * BLOCK_SIZE) BLOCK_SIZE < BLOCK_SIZE ∧
    (readBlockFile { size := 0, byte := fun _ => 0 } 0 (fun _ => 0)).isOk = true := by
  exact ⟨by decide, rfl⟩

/-- C7 amended: the Block Reader never fails: seek and read results are
ignored and a buffer is always returned; in-file bytes are served from the
file, bytes past end of file keep the prior buffer contents. -/
theorem c7_amended_reader_never_fails (f : ImageFile) (blockNum : Nat) (old : Nat → Nat) :
    ∃ buf, readBlockFile f blockNum old = Except.ok buf ∧
      ∀ j, (blockNum * BLOCK_SIZE + j < f.size →
          buf j = f.byte (blockNum * BLOCK_SIZE + j) % 256) ∧
        (f.size ≤ blockNum * BLOCK_SIZE + j → buf j = old j) := by
  refine ⟨_, rfl, ?_⟩
  intro j
  constructor
  · intro h
    simp only [if_pos h]
  · intro h
    simp only [if_neg (by omega : ¬blockNum * BLOCK_SIZE + j < f.size)]

/-! C8: exit codes and the two fatal cases. -/

/-- C8: the program exits 0 exactly when one positional argument is given
and the file opens; the two fatal cases print to the error stream and exit
non-zero; with an opened image all checks run and the exit code is 0 no
matter what they find. -/
theorem c8_exit_codes (argc : Nat) (file : Option Image) :
    ((task1Main argc file).exitCode = 0 ↔ argc = 2 ∧ file ≠ none) ∧
    (argc ≠ 2 →
      (task1Main argc file).stderr = [ErrMsg.usage] ∧ (task1Main argc file).exitCode = 1) ∧
    (argc = 2 ∧ file = none →
      (task1Main argc file).stderr = [ErrMsg.openFailed] ∧ (task1Main argc file).exitCode = 1) ∧
    (∀ img, argc = 2 → file = some img →
      (task1Main argc file).exitCode = 0 ∧ (task1Main argc file).stdout = runChecker img ∧
        (task1Main argc file).stderr = []) := by
  by_cases h : argc = 2
  · subst h
    cases file with
    | none => simp [task1Main]
    | some img => simp [task1Main]
  · simp [task1Main, h]

/-! C9: the bitmap decode round-trip. -/

/-- One packed byte, bit `k` holding entry `k` (little-endian bit order, as
the spec states it). -/
def byteOfBits (b0 b1 b2 b3 b4 b5 b6 b7 : Bool) : Nat :=
  (cond b0 1 0) + 2 * cond b1 1 0 + 4 * cond b2 1 0 + 8 * cond b3 1 0 +
    16 * cond b4 1 0 + 32 * cond b5 1 0 + 64 * cond b6 1 0 + 128 * cond b7 1 0

/-- Packing a boolean vector into bytes with the stated bit order: entry `i`
becomes bit `i % 8` of byte `i / 8`. -/
def packBits (v : List Bool) : List Nat :=
  (List.range ((v.length + 7) / 8)).map fun q =>
    byteOfBits (v.getD (8 * q) false) (v.getD (8 * q + 1) false) (v.getD (8 * q + 2) false)
      (v.getD (8 * q + 3) false) (v.getD (8 * q + 4) false) (v.getD (8 * q + 5) false)
      (v.getD (8 * q + 6) false) (v.getD (8 * q + 7) false)

/-- The bitmap decoder of `loadBitmap`, applied to a raw byte array: entry
`i` is `bitmapBit` of the array, exactly as line 75 computes it. -/
def decodeBitmapList (raw : List Nat) (count : Nat) : List Bool :=
  (List.range count).map fun i => bitmapBit (fun j => raw.getD j 0) i

lemma byteOfBits_shift (b0 b1 b2 b3 b4 b5 b6 b7 : Bool) :
    ∀ r, r < 8 →
      ((byteOfBits b0 b1 b2 b3 b4 b5 b6 b7) >>> r) % 2 =
        cond ([b0, b1, b2, b3, b4, b5, b6, b7].getD r false) 1 0 := by
  intro r hr
  interval_cases r <;> revert b0 b1 b2 b3 b4 b5 b6 b7 <;> decide

lemma getD_list8 (f : Nat → Bool) (r : Nat) (hr : r < 8) :
    [f 0, f 1, f 2, f 3, f 4, f 5, f 6, f 7].getD r false = f r := by
  interval_cases r <;> rfl

/-- C9: packing any boolean vector (its length need not be a multiple of 8)
with the stated bit order and decoding it again with the bitmap decoder for
the same entry count yields the original vector; and the decoder reads only
the bits below the requested count, ignoring all bits beyond it. -/
theorem c9_bitmap_roundtrip (v : List Bool) (raw raw2 : List Nat) (count : Nat) :
    decodeBitmapList (packBits v) v.length = v ∧
    ((∀ i, i < count →
        (raw.getD (i / 8) 0 >>> (i % 8)) % 2 = (raw2.getD (i / 8) 0 >>> (i % 8)) % 2) →
      decodeBitmapList raw count = decodeBitmapList raw2 count) := by
  constructor
  · apply List.ext_getElem
    · simp [decodeBitmapList]
    · intro i h1 h2
      simp only [decodeBitmapList, List.getElem_map, List.getElem_range]
      have hq : i / 8 < (v.length + 7) / 8 := by omega
      have hbyte : (packBits v).getD (i / 8) 0 =
          byteOfBits (v.getD (8 * (i / 8)) false) (v.getD (8 * (i / 8) + 1) false)
            (v.getD (8 * (i / 8) + 2) false) (v.getD (8 * (i / 8) + 3) false)
            (v.getD (8 * (i / 8) + 4) false) (v.getD (8 * (i / 8) + 5) false)
            (v.getD (8 * (i / 8) + 6) false) (v.getD (8 * (i / 8) + 7) false) := by
        rw [packBits, List.getD_eq_getElem?_getD, List.getElem?_map, List.getElem?_range]
        · rfl
        · exact hq
      rw [bitmapBit, hbyte,
        byteOfBits_shift _ _ _ _ _ _ _ _ (i % 8) (Nat.mod_lt _ (by norm_num))]
      have hsel := getD_list8 (fun k => v.getD (8 * (i / 8) + k) false) (i % 8)
        (Nat.mod_lt _ (by norm_num))
      simp only [Nat.add_zero] at hsel
      rw [hsel, Nat.div_add_mod i 8, List.getD_eq_getElem v false h2]
      cases v[i] <;> rfl
  · intro h
    unfold decodeBitmapList
    apply List.map_congr_left
    intro i hi
    unfold bitmapBit
    rw [h i (List.mem_range.mp hi)]

/-! C10: the diagnostic output depends only on blocks 0-7 (superblock,
bitmaps, inode table); the data region is never read. -/

lemma byteAt_agree {img1 img2 : Image}
    (h : ∀ off, off < 32768 → img1 off = img2 off)
    {off : Nat} (hoff : off < 32768) :
    byteAt img1 off = byteAt img2 off := by
  unfold byteAt
  rw [h off hoff]

lemma readBlock_agree {img1 img2 : Image}
    (h : ∀ off, off < 32768 → img1 off = img2 off)
    {b j : Nat} (hb : b < 8) (hj : j < 4096) :
    readBlock img1 b j = readBlock img2 b j := by
  unfold readBlock
  apply byteAt_agree h
  simp only [BLOCK_SIZE]
  omega

lemma buf16_agree {img1 img2 : Image}
    (h : ∀ off, off < 32768 → img1 off = img2 off)
    {b off : Nat} (hb : b < 8) (hoff : off + 1 < 4096) :
    buf16 (readBlock img1 b) off = buf16 (readBlock img2 b) off := by
  unfold buf16
  rw [readBlock_agree h hb (by omega), readBlock_agree h hb (by omega)]

lemma buf32_agree {img1 img2 : Image}
    (h : ∀ off, off < 32768 → img1 off = img2 off)
    {b off : Nat} (hb : b < 8) (hoff : off + 3 < 4096) :
    buf32 (readBlock img1 b) off = buf32 (readBlock img2 b) off := by
  unfold buf32
  rw [readBlock_agree h hb (by omega), readBlock_agree h hb (by omega),
    readBlock_agree h hb (by omega), readBlock_agree h hb (by omega)]

lemma readInode_agree {img1 img2 : Image}
    (h : ∀ off, off < 32768 → img1 off = img2 off)
    {i : Nat} (hi : i < MAX_INODES) :
    readInode img1 i = readInode img2 i := by
  have hi80 : i < 80 := by
    simpa [MAX_INODES, INODES_PER_BLOCK, BLOCK_SIZE, INODE_SIZE, INODE_TABLE_BLOCKS] using hi
  have hb : INODE_TABLE_START_BLOCK + (i * INODE_SIZE) / BLOCK_SIZE < 8 := by
    simp only [INODE_TABLE_START_BLOCK, INODE_SIZE, BLOCK_SIZE]
    omega
  simp only [readInode]
  congr 1 <;> apply buf32_agree h hb <;> simp only [INODE_SIZE, BLOCK_SIZE] <;> omega

lemma inodeBitmap_agree {img1 img2 : Image}
    (h : ∀ off, off < 32768 → img1 off = img2 off)
    {i : Nat} (hi : i < MAX_INODES) :
    inodeBitmap img1 i = inodeBitmap img2 i := by
  have hi80 : i < 80 := by
    simpa [MAX_INODES, INODES_PER_BLOCK, BLOCK_SIZE, INODE_SIZE, INODE_TABLE_BLOCKS] using hi
  unfold inodeBitmap loadBitmap bitmapBit
  rw [readBlock_agree h (by decide) (by omega)]

lemma dataBitmap_agree {img1 img2 : Image}
    (h : ∀ off, off < 32768 → img1 off = img2 off)
    {b : Nat} (hb : b < MAX_DATA_BLOCKS) :
    dataBitmap img1 b = dataBitmap img2 b := by
  have hb56 : b < 56 := by
    simpa [MAX_DATA_BLOCKS, TOTAL_BLOCKS, DATA_BLOCK_START] using hb
  unfold dataBitmap loadBitmap bitmapBit
  rw [readBlock_agree h (by decide) (by omega)]

lemma decodeSuperblock_agree {img1 img2 : Image}
    (h : ∀ off, off < 32768 → img1 off = img2 off) :
    decodeSuperblock (readBlock img1 SUPERBLOCK_BLOCK_NO) =
      decodeSuperblock (readBlock img2 SUPERBLOCK_BLOCK_NO) := by
  unfold decodeSuperblock
  congr 1 <;>
    first
    | exact buf16_agree h (by decide) (by decide)
    | exact buf32_agree h (by decide) (by decide)

lemma readSuperblockOut_agree {img1 img2 : Image}
    (h : ∀ off, off < 32768 → img1 off = img2 off) :
    readSuperblockOut img1 = readSuperblockOut img2 := by
  unfold readSuperblockOut
  rw [decodeSuperblock_agree h]

lemma checkInodesStep_agree {img1 img2 : Image}
    (h : ∀ off, off < 32768 → img1 off = img2 off)
    {i : Nat} (hi : i < MAX_INODES) (s : ScanState) :
    checkInodesStep img1 s i = checkInodesStep img2 s i := by
  have hino := readInode_agree h hi
  have hib := inodeBitmap_agree h hi
  unfold checkInodesStep
  simp only [hino, hib]
  by_cases hv : isValid (readInode img2 i) = true
  · by_cases hd : MAX_DATA_BLOCKS ≤ (readInode img2 i).direct
    · simp [hv, hd]
    · have hdb := dataBitmap_agree h (show (readInode img2 i).direct < MAX_DATA_BLOCKS from
        Nat.lt_of_not_le hd)
      simp [hv, hd, hdb]
  · simp [hv]

lemma checkInodes_agree {img1 img2 : Image}
    (h : ∀ off, off < 32768 → img1 off = img2 off) :
    checkInodes img1 = checkInodes img2 := by
  unfold checkInodes
  exact foldl_congr_of_mem _
    (fun i hi s => checkInodesStep_agree h (List.mem_range.mp hi) s) _

lemma checkInodeBitmap_agree {img1 img2 : Image}
    (h : ∀ off, off < 32768 → img1 off = img2 off) (s : ScanState) :
    checkInodeBitmap img1 s = checkInodeBitmap img2 s := by
  have hfold : (List.range MAX_INODES).foldl (checkInodeBitmapStep img1 s) (0, []) =
      (List.range MAX_INODES).foldl (checkInodeBitmapStep img2 s) (0, []) :=
    foldl_congr_of_mem _
      (fun i hi p => by
        unfold checkInodeBitmapStep
        simp only [inodeBitmap_agree h (List.mem_range.mp hi)]) _
  unfold checkInodeBitmap
  rw [hfold]

lemma checkDataBitmap_agree {img1 img2 : Image}
    (h : ∀ off, off < 32768 → img1 off = img2 off) (s : ScanState) :
    checkDataBitmap img1 s = checkDataBitmap img2 s := by
  unfold checkDataBitmap
  exact foldl_congr_of_mem _
    (fun b hb out => by
      unfold checkDataBitmapStep
      simp only [dataBitmap_agree h (List.mem_range.mp hb)]) _

lemma checkBadBlocks_agree {img1 img2 : Image}
    (h : ∀ off, off < 32768 → img1 off = img2 off) :
    checkBadBlocks img1 = checkBadBlocks img2 := by
  have hfold : (List.range MAX_INODES).foldl (checkBadBlocksStep img1) (false, []) =
      (List.range MAX_INODES).foldl (checkBadBlocksStep img2) (false, []) :=
    foldl_congr_of_mem _
      (fun i hi p => by
        unfold checkBadBlocksStep
        simp only [readInode_agree h (List.mem_range.mp hi)]) _
  unfold checkBadBlocks
  rw [hfold]

/-- C10: two images identical on blocks 0-7 (the superblock, the two
bitmaps and the five inode-table blocks) produce identical diagnostic
output and identical exit codes, however their data region (blocks 8-63)
differs: the checker never reads the data region. -/
theorem c10_data_region_independence (img1 img2 : Image)
    (h : ∀ off, off < DATA_BLOCK_START * BLOCK_SIZE → img1 off = img2 off) :
    runChecker img1 = runChecker img2 ∧
    (task1Main 2 (some img1)).exitCode = (task1Main 2 (some img2)).exitCode := by
  have h8 : ∀ off, off < 32768 → img1 off = img2 off := by
    intro off hoff
    apply h off
    simp only [DATA_BLOCK_START, BLOCK_SIZE]
    omega
  constructor
  · simp only [runChecker]
    rw [checkInodes_agree h8, readSuperblockOut_agree h8, checkInodeBitmap_agree h8,
      checkDataBitmap_agree h8, checkBadBlocks_agree h8]
  · simp [task1Main]

/-- C10 witness: the all-zero image and an image whose whole data region is
overwritten with junk produce identical output and exit codes. -/
theorem c10_witness :
    runChecker imgAllZero = runChecker imgDataJunk ∧
    (task1Main 2 (some imgAllZero)).exitCode = (task1Main 2 (some imgDataJunk)).exitCode :=
  c10_data_region_independence imgAllZero imgDataJunk (by
    intro off hoff
    unfold imgAllZero imgDataJunk
    rw [if_neg (by omega)])

end Vsfs
